import Mathlib

/-!
# Verification of the satellite channel simulator model (`src/model.js`)

Shallow embedding over `ℝ` of the link-budget engine, CIR engine, MIMO
capacity calculator, calibration engine and channel time-series generator,
together with proofs of the frozen specification claims.

JavaScript numeric semantics are modelled by real arithmetic.  The JS falsy
default `x || d` (which replaces both `undefined` and `0` by `d`) is modelled
by `jsOr`/`jsOrOpt`; the ES destructuring default `{ x = d }` (which replaces
only `undefined`) is modelled by `Option.getD`.
-/

noncomputable section

namespace SatChannel

open Real

/-- JS falsy default on a present number: `x || d` (`0` is falsy). -/
def jsOr (x d : ℝ) : ℝ := if x = 0 then d else x

/-- JS falsy default on an optional field: `obj.x || d`. -/
def jsOrOpt (o : Option ℝ) (d : ℝ) : ℝ :=
  match o with
  | none => d
  | some x => jsOr x d

/-- `model.js` lines 17-18: fixed sum-of-sinusoids component frequencies. -/
def sosFreqs : List ℝ := [0.11, 0.23, 0.37, 0.53, 0.79]

/-- `model.js` lines 17-18: fixed sum-of-sinusoids phase offsets. -/
def sosPhases : List ℝ := [0.1, 1.2, 2.3, 3.4, 4.5]

/-- `model.js` lines 15-24: deterministic sum-of-sinusoids fading oscillator. -/
def getSoSFade (t : ℝ) : ℝ :=
  if t = 0 then 0
  else ((sosFreqs.zip sosPhases).foldl
      (fun sum fp => sum + Real.cos (2.0 * π * fp.1 * t + fp.2)) 0) / 1.581

/-- Input parameter object for the model functions; optional JS fields are
`Option ℝ` (absent = `none`).  `freq`, `rainRate`, `elevation`, `env` have no
destructuring defaults in `calculateLinkBudget` and are modelled as required. -/
structure LinkParams where
  freq : ℝ
  rainRate : ℝ
  elevation : ℝ
  env : String
  tec : Option ℝ := none
  xpdAnt : Option ℝ := none
  correctionFactor : Option ℝ := none
  slantRange : Option ℝ := none
  hpbw : Option ℝ := none
  simTime : Option ℝ := none
  gasAttenOffset_dB : Option ℝ := none
  scatterPowerOffset_dB : Option ℝ := none
  isPhasedArray : Bool := false
  bandwidth : Option ℝ := none
  disableFastFading : Bool := false
  eirp : Option ℝ := none
  gRx : Option ℝ := none
  tRx : Option ℝ := none

/-- Destructuring default `tec = 50.0` (`model.js` line 27). -/
def tecD (p : LinkParams) : ℝ := p.tec.getD 50

/-- Destructuring default `xpdAnt = 35.0` (line 27). -/
def xpdAntD (p : LinkParams) : ℝ := p.xpdAnt.getD 35

/-- Destructuring default `correctionFactor = 1.0` (line 27). -/
def correctionFactorD (p : LinkParams) : ℝ := p.correctionFactor.getD 1

/-- Destructuring default `slantRange = 35786` (line 27). -/
def slantRangeD (p : LinkParams) : ℝ := p.slantRange.getD 35786

/-- Destructuring default `hpbw = 2.0` (line 27). -/
def hpbwD (p : LinkParams) : ℝ := p.hpbw.getD 2

/-- Destructuring default `simTime = 0` (line 27). -/
def simTimeD (p : LinkParams) : ℝ := p.simTime.getD 0

/-- `params.bandwidth !== undefined ? params.bandwidth : 400` (line 150). -/
def bandwidthD (p : LinkParams) : ℝ := p.bandwidth.getD 400

/-- `model.js` lines 6-12: ITU-R rain coefficient table, entries
`(frequency GHz, k, alpha)` in the traversal order of `Object.entries`:
the integer-like keys `"12"`, `"30"`, `"40"`, `"50"` come first in ascending
numeric order, then the non-index string key `"2.2"` in insertion order
(observable only at the exact tie frequency 7.1 GHz). -/
def RAIN_COEFFS : List (ℝ × ℝ × ℝ) :=
  [(12.0, 0.018, 1.15), (30.0, 0.187, 1.021), (40.0, 0.35, 0.93),
   (50.0, 0.55, 0.88), (2.2, 0.0002, 0.95)]

/-- `model.js` lines 38-47 (and the identical copy at lines 702-707):
nearest-neighbour `(k, alpha)` selection, seeded with `k=0.018, alpha=1.15,
minDiff=100`, strict `<` so ties keep the earlier entry. -/
def selectRainCoeff (freq : ℝ) : ℝ × ℝ :=
  (RAIN_COEFFS.foldl
    (fun acc c => if |c.1 - freq| < acc.1 then (|c.1 - freq|, c.2.1, c.2.2) else acc)
    (100, 0.018, 1.15)).2

/-- Line 30: `Math.max(0, elevation)`. -/
def trueElev (p : LinkParams) : ℝ := max 0 p.elevation

/-- Line 31: ITU-R refraction bending correction in degrees. -/
def refractionCorrection (p : LinkParams) : ℝ :=
  1.02 / Real.tan ((trueElev p + 10.3 / (trueElev p + 5.11)) * π / 180) / 60

/-- Line 32: `elevation + refractionCorrection`. -/
def apparentElevation (p : LinkParams) : ℝ := p.elevation + refractionCorrection p

/-- Line 35: pointing loss, `0` when `hpbw` is not `> 0`. -/
def pointingLoss (p : LinkParams) : ℝ :=
  if 0 < hpbwD p then 12.0 * (refractionCorrection p / hpbwD p) ^ (2 : ℕ) else 0

/-- Line 51: `elevRad = effElev * PI / 180` where `effElev = apparentElevation`.
Note: NOT floored; this is the raw divisor used by lines 53, 64, 68, 73. -/
def elevRad (p : LinkParams) : ℝ := apparentElevation p * π / 180

/-- Line 50: specific rain attenuation `gamma = k * rainRate^alpha * correctionFactor`. -/
def gammaLB (p : LinkParams) : ℝ :=
  (selectRainCoeff p.freq).1 * p.rainRate ^ (selectRainCoeff p.freq).2 * correctionFactorD p

/-- Line 53: `slantPath = 3.0 / sin(elevRad)` (no floor on the sine). -/
def slantPathLB (p : LinkParams) : ℝ := 3.0 / Real.sin (elevRad p)

/-- Line 54: path reduction factor. -/
def rFactorLB (p : LinkParams) : ℝ := 1 / (1 + 0.045 * slantPathLB p)

/-- Line 55: effective path length.  Note the JS error path that real
division collapses: when `sin(elevRad) = 0`, JS computes
`slantPath = Infinity`, `rFactor = 0` and `lEff = Infinity * 0 = NaN`
(so `attRain = NaN` even at `gamma = 0`), while real arithmetic yields 0;
likewise when `1 + 0.045 * slantPath = 0`, JS gives `rFactor = Infinity`
and `lEff = ±Infinity`.  See the C4 correction. -/
def lEff (p : LinkParams) : ℝ := slantPathLB p * rFactorLB p

/-- Line 56: rain attenuation `gamma * lEff`. -/
def attRain (p : LinkParams) : ℝ := gammaLB p * lEff p

/-- Lines 58-63: piecewise-constant zenith gas attenuation by frequency band. -/
def attZenithGas (p : LinkParams) : ℝ :=
  if p.freq < 10 then 0.05
  else if p.freq < 20 then 0.2
  else if p.freq < 35 then 0.3
  else if p.freq < 50 then 0.8
  else 4.0

/-- Line 64: `attZenithGas / sin(elevRad)` (no floor on the sine). -/
def attGas (p : LinkParams) : ℝ := attZenithGas p / Real.sin (elevRad p)

/-- Lines 66-68: cloud attenuation `(0.5 * 0.0002 * freq^1.95) / sin(elevRad)`. -/
def attCloud (p : LinkParams) : ℝ :=
  0.5 * (0.0002 * p.freq ^ (1.95 : ℝ)) / Real.sin (elevRad p)

/-- Line 70: total atmospheric loss including the calibration gas offset
(`params.gasAttenOffset_dB || 0`). -/
def totalAtmosphericLoss (p : LinkParams) : ℝ :=
  attRain p + attGas p + attCloud p + jsOrOpt p.gasAttenOffset_dB 0

/-- Line 73: Faraday rotation angle in degrees.  Note the JS error path that
real division collapses: when the numerator is 0 (TEC = 0) and the
denominator is also 0 (`freq = 0` or `sin(elevRad) = 0`), JS computes
`0/0 = NaN`, `cos(NaN) = NaN`, and the `cosOmega > 0.001` test fails, so
`lossFaraday` takes the 60 dB branch; real arithmetic yields `omegaDeg = 0`
hence `lossFaraday = 0`.  See the C4 correction. -/
def omegaDeg (p : LinkParams) : ℝ :=
  108 * tecD p / (p.freq ^ (2 : ℕ) * Real.sin (elevRad p))

/-- Line 74. -/
def omegaRad (p : LinkParams) : ℝ := omegaDeg p * π / 180

/-- Lines 77-83: polarization mismatch loss, capped at 60 dB. -/
def lossFaraday (p : LinkParams) : ℝ :=
  if 0.001 < |Real.cos (omegaRad p)| then -20 * Real.logb 10 |Real.cos (omegaRad p)|
  else 60.0

/-- Lines 86-90: Faraday-induced XPD, floor 40 dB. -/
def xpdFaraday (p : LinkParams) : ℝ :=
  if 1e-4 < |Real.tan (omegaRad p)| then -20 * Real.logb 10 |Real.tan (omegaRad p)|
  else 40.0

/-- Lines 93-98: rain-induced XPD, only when `attRain > 0.1`. -/
def xpdRain (p : LinkParams) : ℝ :=
  if 0.1 < attRain p then 30 * Real.logb 10 p.freq - 20 * Real.logb 10 (attRain p)
  else 40.0

/-- Lines 101-107: total XPD as a power sum, clamped to [0, 40]. -/
def xpdTotal (p : LinkParams) : ℝ :=
  max 0 (min 40 (-10 * Real.logb 10
    ((10 : ℝ) ^ (-(xpdRain p) / 10) + (10 : ℝ) ^ (-(xpdFaraday p) / 10)
      + (10 : ℝ) ^ (-(xpdAntD p) / 10))))

/-- Lines 109-113: environmental shadowing (`effElev = apparentElevation`). -/
def fadeLMS (p : LinkParams) : ℝ :=
  if p.env = "urban" then 15.0 - apparentElevation p * 0.15
  else if p.env = "suburban" then 6.0 - apparentElevation p * 0.05
  else if p.env = "maritime" then 0.0
  else 0.5

/-- Lines 115-127: two-ray maritime multipath (gain floored at 0.01). -/
def multipathLoss (p : LinkParams) : ℝ :=
  if p.env = "maritime" then
    -10.0 * Real.logb 10 (max 0.01 (4.0 *
      Real.sin (2.0 * π * 15.0 * |Real.sin (apparentElevation p * (π / 180))| * p.freq
        / 0.299792458) ^ (2 : ℕ)))
  else 0

/-- Line 130: FSPL at the GEO reference range 35786 km. -/
def refFspl (p : LinkParams) : ℝ :=
  20 * Real.logb 10 35786 + 20 * Real.logb 10 p.freq + 92.45

/-- Line 131: FSPL at the actual slant range. -/
def actualFspl (p : LinkParams) : ℝ :=
  20 * Real.logb 10 (slantRangeD p) + 20 * Real.logb 10 p.freq + 92.45

/-- Line 132. -/
def deltaFspl (p : LinkParams) : ℝ := actualFspl p - refFspl p

/-- Lines 135-140: phased-array cosine roll-off scan loss (cos floored at 0.01). -/
def scanLoss (p : LinkParams) : ℝ :=
  if p.isPhasedArray then
    -15.0 * Real.logb 10 (max 0.01 (Real.cos ((90.0 - apparentElevation p) * (π / 180))))
  else 0

/-- Line 143: floored sine used by scintillation and ionospheric terms only. -/
def sinElevFloor (p : LinkParams) : ℝ := max 0.01 (Real.sin (apparentElevation p * π / 180))

/-- Line 144. -/
def sigmaTropo (p : LinkParams) : ℝ :=
  0.025 * p.freq ^ (0.58 : ℝ) / sinElevFloor p ^ (1.2 : ℝ)

/-- Line 145: note the falsy default `params.tec || 50` (not the destructured `tec`). -/
def sigmaIono (p : LinkParams) : ℝ :=
  jsOrOpt p.tec 50 / 100.0 * (2.0 / p.freq ^ (1.5 : ℝ)) / sinElevFloor p ^ (1.2 : ℝ)

/-- Line 146. -/
def scintillationSigma (p : LinkParams) : ℝ :=
  Real.sqrt (sigmaTropo p * sigmaTropo p + sigmaIono p * sigmaIono p)

/-- Line 149: `params.tec !== undefined ? params.tec : 50`. -/
def tecValLB (p : LinkParams) : ℝ := p.tec.getD 50

/-- Line 151: ionospheric group delay in ns. -/
def groupDelayNs (p : LinkParams) : ℝ :=
  134.0 * tecValLB p / (p.freq * p.freq * sinElevFloor p)

/-- Line 153: dispersion over the bandwidth in ns. -/
def dispersionNs (p : LinkParams) : ℝ :=
  2.0 * 134.0 * tecValLB p * (bandwidthD p / 1000.0) / (p.freq ^ (3 : ℕ) * sinElevFloor p)

/-- Line 155: maximal symbol rate, sentinel 999999 below the threshold. -/
def maxSymbolRateMbaud (p : LinkParams) : ℝ :=
  if 0.001 < dispersionNs p then 1000.0 / (2.0 * dispersionNs p) else 999999

/-- Line 158: realized scintillation loss (`simTime` truthy and fast fading on). -/
def scintLoss (p : LinkParams) : ℝ :=
  if simTimeD p ≠ 0 ∧ ¬p.disableFastFading then getSoSFade (simTimeD p) * scintillationSigma p
  else 0

/-- Line 160. -/
def totalLoss (p : LinkParams) : ℝ :=
  totalAtmosphericLoss p + fadeLMS p + lossFaraday p + deltaFspl p + pointingLoss p
    + scanLoss p + multipathLoss p + scintLoss p

/-- Line 163: sky noise temperature. -/
def tSky (p : LinkParams) : ℝ :=
  290.0 * (1.0 - (10 : ℝ) ^ (-(totalAtmosphericLoss p) / 10.0))

/-- The flat result bundle returned by `calculateLinkBudget` (lines 165-170). -/
structure LinkBudgetResult where
  attRain : ℝ
  attGas : ℝ
  attCloud : ℝ
  fadeLMS : ℝ
  lossFaraday : ℝ
  omegaDeg : ℝ
  totalLoss : ℝ
  xpd : ℝ
  actualFspl : ℝ
  deltaFspl : ℝ
  apparentElevation : ℝ
  refractionCorrection : ℝ
  pointingLoss : ℝ
  scanLoss : ℝ
  multipathLoss : ℝ
  tSky : ℝ
  totalAtmosphericLoss : ℝ
  scintLoss : ℝ
  scintillationSigma : ℝ
  groupDelayNs : ℝ
  dispersionNs : ℝ
  maxSymbolRateMbaud : ℝ

/-- `model.js` lines 26-171: the link budget engine. -/
def calculateLinkBudget (p : LinkParams) : LinkBudgetResult :=
  { attRain := attRain p
    attGas := attGas p
    attCloud := attCloud p
    fadeLMS := fadeLMS p
    lossFaraday := lossFaraday p
    omegaDeg := omegaDeg p
    totalLoss := totalLoss p
    xpd := xpdTotal p
    actualFspl := actualFspl p
    deltaFspl := deltaFspl p
    apparentElevation := apparentElevation p
    refractionCorrection := refractionCorrection p
    pointingLoss := pointingLoss p
    scanLoss := scanLoss p
    multipathLoss := multipathLoss p
    tSky := tSky p
    totalAtmosphericLoss := totalAtmosphericLoss p
    scintLoss := scintLoss p
    scintillationSigma := scintillationSigma p
    groupDelayNs := groupDelayNs p
    dispersionNs := dispersionNs p
    maxSymbolRateMbaud := maxSymbolRateMbaud p }

/-- Result of `calculateMIMOCapacity` (lines 374-382). -/
structure MIMOCapacity where
  capRank2 : ℝ
  capRank1 : ℝ

/-- `model.js` lines 374-382: simplified dual-polarization MIMO capacities. -/
def calculateMIMOCapacity (snrDb xpdDb : ℝ) : MIMOCapacity :=
  let snr := (10 : ℝ) ^ (snrDb / 10)
  let crosstalkPower := (10 : ℝ) ^ (-xpdDb / 10)
  let pSig := snr / 2
  let sinrSimple := pSig / (1 + pSig * crosstalkPower)
  { capRank2 := 2 * Real.logb 2 (1 + sinrSimple)
    capRank1 := Real.logb 2 (1 + snr) }

/-! ## CIR engine (`model.js` lines 686-825)

`computeCIR` destructures its parameter object at entry
(line 690: `const { freq, elevation, slantRange, env, tec = 50, rainRate = 0,
correctionFactor = 1.0, hpbw = 2.0, simTime = 0 } = params`); we mirror the
destructured locals in `CIRInput`.  The local `tecVal = tec || 50` of line 791
is folded into the `tecVal` field (`jsOr (tec.getD 50) 50`); `slantRange` has
no destructuring default here — a missing slant range yields NaN amplitudes in
JS, we resolve it with the junk value 0 (no claim depends on that case). -/

/-- The destructured locals of `computeCIR`. -/
structure CIRInput where
  freq : ℝ
  elevation : ℝ
  slantRange : ℝ
  env : String
  tecVal : ℝ
  rainRate : ℝ
  correctionFactor : ℝ
  hpbw : ℝ
  simTime : ℝ

/-- Destructuring of a `LinkParams` object at the `computeCIR` entry. -/
def cirInputOf (p : LinkParams) : CIRInput :=
  { freq := p.freq
    elevation := p.elevation
    slantRange := p.slantRange.getD 0
    env := p.env
    tecVal := jsOr (p.tec.getD 50) 50
    rainRate := p.rainRate
    correctionFactor := p.correctionFactor.getD 1
    hpbw := p.hpbw.getD 2
    simTime := p.simTime.getD 0 }

/-- One multipath tap of the tapped-delay-line model (lines 732-740). -/
structure ChannelTap where
  index : ℕ
  label : String
  delay_ns : ℝ
  excessDelay_ns : ℝ
  amplitude_linear : ℝ
  amplitude_dB : ℝ
  phase_rad : ℝ

/-- Line 693: `elevRad = max(0.1, elevation) * PI / 180`. -/
def cirElevRad (q : CIRInput) : ℝ := max 0.1 q.elevation * π / 180

/-- Line 694. -/
def cirSinElev (q : CIRInput) : ℝ := Real.sin (cirElevRad q)

/-- Line 697: LOS absolute delay in ns (`C_M_S = 299792458`). -/
def losDelay_ns (q : CIRInput) : ℝ := q.slantRange * 1e3 / 299792458 * 1e9

/-- Line 699: absolute FSPL in dB. -/
def cirAbsoluteFspl (q : CIRInput) : ℝ :=
  20 * Real.logb 10 q.slantRange + 20 * Real.logb 10 q.freq + 92.45

/-- Line 708. -/
def cirGamma (q : CIRInput) : ℝ :=
  (selectRainCoeff q.freq).1 * q.rainRate ^ (selectRainCoeff q.freq).2 * q.correctionFactor

/-- Line 710. -/
def cirSlantPath (q : CIRInput) : ℝ := 3.0 / cirSinElev q

/-- Line 711. -/
def cirRFactor (q : CIRInput) : ℝ := 1 / (1 + 0.045 * cirSlantPath q)

/-- Line 712. -/
def cirAttRain (q : CIRInput) : ℝ := cirGamma q * cirSlantPath q * cirRFactor q

/-- Lines 714-719. -/
def cirAttZenithGas (q : CIRInput) : ℝ :=
  if q.freq < 10 then 0.05
  else if q.freq < 20 then 0.2
  else if q.freq < 35 then 0.3
  else if q.freq < 50 then 0.8
  else 4.0

/-- Line 720. -/
def cirAttGas (q : CIRInput) : ℝ := cirAttZenithGas q / cirSinElev q

/-- Lines 722-724. -/
def cirAttCloud (q : CIRInput) : ℝ :=
  0.5 * (0.0002 * q.freq ^ (1.95 : ℝ)) / cirSinElev q

/-- Line 726. -/
def cirTotalAtmLoss (q : CIRInput) : ℝ := cirAttRain q + cirAttGas q + cirAttCloud q

/-- Line 730. -/
def losAmplitude_dB (q : CIRInput) : ℝ := -(cirAbsoluteFspl q + cirTotalAtmLoss q)

/-- Line 729. -/
def losAmplitude (q : CIRInput) : ℝ :=
  (10 : ℝ) ^ (-(cirAbsoluteFspl q + cirTotalAtmLoss q) / 20)

/-- Lines 732-740: tap 0, the LOS tap — excess delay 0, phase 0. -/
def losTap (q : CIRInput) : ChannelTap :=
  { index := 0
    label := "LOS (直射)"
    delay_ns := losDelay_ns q
    excessDelay_ns := 0
    amplitude_linear := losAmplitude q
    amplitude_dB := losAmplitude_dB q
    phase_rad := 0 }

/-- Lines 743-760: the sea-reflection tap (maritime only), phase `π`,
reflection coefficient magnitude `|-0.85|`. -/
def seaTap (q : CIRInput) : ChannelTap :=
  { index := 1
    label := "海面反射"
    delay_ns := losDelay_ns q + 2 * 15.0 * cirSinElev q / 299792458 * 1e9
    excessDelay_ns := 2 * 15.0 * cirSinElev q / 299792458 * 1e9
    amplitude_linear := losAmplitude q * |(-0.85 : ℝ)|
    amplitude_dB := 20 * Real.logb 10 (losAmplitude q * |(-0.85 : ℝ)|)
    phase_rad := π }

/-- Sea-reflection taps: present exactly for the maritime environment. -/
def cirSeaTaps (q : CIRInput) : List ChannelTap :=
  if q.env = "maritime" then [seaTap q] else []

/-- Lines 765-767: fixed scatter components `(excess delay ns, power dB, label)`. -/
def scatterParamsFor (env : String) : List (ℝ × ℝ × String) :=
  if env = "urban" then [(100, -15, "建筑散射-近"), (300, -22, "建筑散射-远")]
  else [(80, -18, "植被散射-近"), (200, -25, "植被散射-远")]

/-- Lines 763-788: scatter taps for urban/suburban; `elevFactor` uses the raw
(unclamped) elevation; `index` is the running tap count at push time. -/
def cirScatterTaps (q : CIRInput) : List ChannelTap :=
  if q.env = "urban" ∨ q.env = "suburban" then
    ((scatterParamsFor q.env).enum).map (fun iq =>
      let sp := iq.2
      let scatterPower_dB := losAmplitude_dB q + sp.2.1 * max 0.1 (1.0 - q.elevation / 90.0)
      { index := 1 + (cirSeaTaps q).length + iq.1
        label := sp.2.2
        delay_ns := losDelay_ns q + sp.1
        excessDelay_ns := sp.1
        amplitude_linear := (10 : ℝ) ^ (scatterPower_dB / 20)
        amplitude_dB := scatterPower_dB
        phase_rad := if 0 < q.simTime then getSoSFade (q.simTime + (iq.1 : ℝ) * 7.3) * π
          else ((iq.1 : ℝ) + 1) * 1.7 })
  else []

/-- Line 792: ionospheric dispersion in ns (uses `tecVal = tec || 50`). -/
def cirDispersionNs (q : CIRInput) : ℝ :=
  2.0 * 134.0 * q.tecVal * 0.4 / (q.freq ^ (3 : ℕ) * cirSinElev q)

/-- Lines 794-804: the ionospheric dispersion tap. -/
def ionoTap (q : CIRInput) : ChannelTap :=
  { index := 1 + (cirSeaTaps q).length + (cirScatterTaps q).length
    label := "电离层色散"
    delay_ns := losDelay_ns q + cirDispersionNs q
    excessDelay_ns := cirDispersionNs q
    amplitude_linear := (10 : ℝ) ^ ((losAmplitude_dB q - 30 - 10 * Real.logb 10 q.freq) / 20)
    amplitude_dB := losAmplitude_dB q - 30 - 10 * Real.logb 10 q.freq
    phase_rad := if 0 < q.simTime then getSoSFade (q.simTime * 0.3) * π * 0.5 else 0.5 }

/-- Line 793: the ionospheric tap is present iff `dispersionNs > 0.01`. -/
def cirIonoTaps (q : CIRInput) : List ChannelTap :=
  if 0.01 < cirDispersionNs q then [ionoTap q] else []

/-- Lines 732-805: the full tap list in insertion order. -/
def cirTaps (q : CIRInput) : List ChannelTap :=
  [losTap q] ++ cirSeaTaps q ++ cirScatterTaps q ++ cirIonoTaps q

/-- Line 810. -/
def cirTotalPower (q : CIRInput) : ℝ :=
  (cirTaps q).foldl (fun s t => s + t.amplitude_linear * t.amplitude_linear) 0

/-- Line 811. -/
def cirMeanDelay (q : CIRInput) : ℝ :=
  ((cirTaps q).foldl (fun s t => s + t.excessDelay_ns * t.amplitude_linear * t.amplitude_linear) 0)
    / cirTotalPower q

/-- Line 812. -/
def cirMeanDelaySq (q : CIRInput) : ℝ :=
  ((cirTaps q).foldl
      (fun s t => s + t.excessDelay_ns * t.excessDelay_ns * t.amplitude_linear * t.amplitude_linear) 0)
    / cirTotalPower q

/-- Line 813. -/
def cirRmsDelaySpread_ns (q : CIRInput) : ℝ :=
  Real.sqrt (max 0 (cirMeanDelaySq q - cirMeanDelay q * cirMeanDelay q))

/-- Line 816: coherence bandwidth with sentinel 99999. -/
def cirCoherenceBandwidth_MHz (q : CIRInput) : ℝ :=
  if 0.001 < cirRmsDelaySpread_ns q then 1000.0 / (5.0 * cirRmsDelaySpread_ns q) else 99999

/-- The CIR record returned by `computeCIR` (lines 818-824). -/
structure CIRResult where
  taps : List ChannelTap
  rmsDelaySpread_ns : ℝ
  coherenceBandwidth_MHz : ℝ
  absoluteFspl : ℝ
  totalAtmLoss : ℝ

/-- Body of `computeCIR` over the destructured locals. -/
def cirCore (q : CIRInput) : CIRResult :=
  { taps := cirTaps q
    rmsDelaySpread_ns := cirRmsDelaySpread_ns q
    coherenceBandwidth_MHz := cirCoherenceBandwidth_MHz q
    absoluteFspl := cirAbsoluteFspl q
    totalAtmLoss := cirTotalAtmLoss q }

/-- `model.js` lines 689-825: the CIR engine. -/
def computeCIR (params : LinkParams) : CIRResult := cirCore (cirInputOf params)

/-! ## Calibration engine (`model.js` lines 411-684)

The five calibration parameters are indexed `Fin 5` in the order of
`CALIB_PARAM_DEFS`: 0 = `correctionFactor`, 1 = `gasAttenOffset_dB`,
2 = `scatterPowerOffset_dB`, 3 = `eirpOffset_dB`, 4 = `systemNoiseOffset_K`. -/

/-- One row of the calibration parameter table (lines 416-422). -/
structure CalibDef where
  key : String
  defaultVal : ℝ
  min : ℝ
  max : ℝ
  step : ℝ

/-- `model.js` lines 416-422. -/
def CALIB_PARAM_DEFS : Fin 5 → CalibDef
  | 0 => { key := "correctionFactor", defaultVal := 1.0, min := 0.3, max := 3.0, step := 0.01 }
  | 1 => { key := "gasAttenOffset_dB", defaultVal := 0.0, min := -2.0, max := 2.0, step := 0.01 }
  | 2 => { key := "scatterPowerOffset_dB", defaultVal := 0.0, min := -10, max := 5.0, step := 0.1 }
  | 3 => { key := "eirpOffset_dB", defaultVal := 0.0, min := -5.0, max := 5.0, step := 0.1 }
  | 4 => { key := "systemNoiseOffset_K", defaultVal := 0.0, min := -50, max := 100, step := 1.0 }

/-- The calibration profile record (lines 428-440 / 671-679). -/
structure CalibrationProfile where
  calibrated : Bool
  timestamp : Option String
  dataPointCount : ℕ
  residualRMS : ℝ
  refSatellite : Option String := none
  params : Fin 5 → ℝ

/-- `model.js` lines 428-440: default (uncalibrated) profile. -/
def createDefaultCalibration : CalibrationProfile :=
  { calibrated := false
    timestamp := none
    dataPointCount := 0
    residualRMS := 0
    refSatellite := none
    params := fun i => (CALIB_PARAM_DEFS i).defaultVal }

/-- `model.js` lines 448-460: apply a calibration profile to link params.
Identity when the profile is absent or `calibrated` is false. -/
def applyCalibration (rawParams : LinkParams) (calibProfile : Option CalibrationProfile) :
    LinkParams :=
  match calibProfile with
  | none => rawParams
  | some profile =>
    if !profile.calibrated then rawParams
    else
      let cp := profile.params
      { rawParams with
        correctionFactor := some (jsOr (cp 0) 1.0)
        gasAttenOffset_dB := some (jsOr (cp 1) 0)
        scatterPowerOffset_dB := some (jsOr (cp 2) 0)
        eirp := some (jsOrOpt rawParams.eirp 60.0 + jsOr (cp 3) 0)
        tRx := some (jsOrOpt rawParams.tRx 150.0 + jsOr (cp 4) 0) }

/-- A measurement data point (all fields optional, lines 515-534). -/
structure Measurement where
  elevation : Option ℝ := none
  rainRate : Option ℝ := none
  measuredCN0_dB : Option ℝ := none
  measuredRSSI_dBm : Option ℝ := none
  measuredXPD_dB : Option ℝ := none
  measuredAttenuation_dB : Option ℝ := none
  measuredLoss : Option ℝ := none

/-- A known reference satellite (`refSatellite` argument of `calibrateModel`). -/
structure RefSat where
  satName : String
  freq : ℝ
  eirp : ℝ

/-- Result of `simulateForMeasurement` (lines 494-500). -/
structure SimResult where
  predictedCN0 : ℝ
  predictedRSSI : ℝ
  predictedXPD : ℝ
  predictedAtten : ℝ
  totalLoss : ℝ

/-- `model.js` lines 468-501: predicted C/N0, RSSI, XPD and attenuation for one
measurement under the current (calibrated) link parameters. -/
def simulateForMeasurement (linkParams : LinkParams) (measurement : Measurement) : SimResult :=
  let testParams := { linkParams with
    elevation := jsOrOpt measurement.elevation (jsOr linkParams.elevation 30)
    rainRate := match measurement.rainRate with
      | some v => v
      | none => jsOr linkParams.rainRate 0 }
  let lb := calculateLinkBudget testParams
  let freq := jsOr linkParams.freq 30
  let eirp := jsOrOpt linkParams.eirp 60.0
  let gRx := jsOrOpt linkParams.gRx 42.0
  let tRx := jsOrOpt linkParams.tRx 150.0
  let bwMHz := jsOrOpt linkParams.bandwidth 400.0
  let slantRange := jsOrOpt linkParams.slantRange 35786
  let absoluteFspl := 20 * Real.logb 10 slantRange + 20 * Real.logb 10 freq + 92.45
  let absoluteLoss := lb.totalAtmosphericLoss + lb.fadeLMS + lb.lossFaraday
    + lb.pointingLoss + jsOr lb.scanLoss 0 + jsOr lb.multipathLoss 0 + absoluteFspl
  let rxPowerDbm := eirp + 30 - absoluteLoss + gRx
  let tSys := tRx + lb.tSky + 3.0
  let noisePowerW := 1.380649e-23 * tSys * (bwMHz * 1e6)
  let noiseFloorDbm := 10 * Real.logb 10 noisePowerW + 30
  let cn0 := max (-30) (rxPowerDbm - noiseFloorDbm)
  { predictedCN0 := cn0
    predictedRSSI := rxPowerDbm
    predictedXPD := lb.xpd
    predictedAtten := lb.totalAtmosphericLoss
    totalLoss := lb.totalLoss }

/-- `model.js` lines 510-538: the weighted residual vector. -/
def computeResiduals (measurements : List Measurement) (linkParams : LinkParams)
    (calibParams : Fin 5 → ℝ) : List ℝ :=
  let testProfile : CalibrationProfile :=
    { calibrated := true, timestamp := none, dataPointCount := 0, residualRMS := 0
      params := calibParams }
  let calibratedParams := applyCalibration linkParams (some testProfile)
  measurements.flatMap (fun m =>
    let sim := simulateForMeasurement calibratedParams m
    (match m.measuredCN0_dB with
      | some v => [(sim.predictedCN0 - v) * 2.0]
      | none => []) ++
    (match m.measuredRSSI_dBm with
      | some v => [(sim.predictedRSSI - v) * 1.5]
      | none => []) ++
    (match m.measuredXPD_dB with
      | some v => [(sim.predictedXPD - v) * 1.0]
      | none => []) ++
    (match m.measuredAttenuation_dB with
      | some v => [(sim.predictedAtten - v) * 1.5]
      | none => []) ++
    (match m.measuredLoss, m.measuredCN0_dB with
      | some v, none => [(sim.totalLoss - v) * 1.0]
      | _, _ => []))

/-- Dot product of two residual/Jacobian columns (the `for r` loops of
lines 599-613 index both lists in lockstep). -/
def dotList (xs ys : List ℝ) : ℝ := ((xs.zip ys).foldl (fun s ab => s + ab.1 * ab.2) 0)

/-- Lines 577-592: the finite-difference Jacobian column for parameter `p`,
perturbation `max(step*0.1, 1e-6)`. -/
def calibJacobianCol (measurements : List Measurement) (linkParams : LinkParams)
    (calibParams : Fin 5 → ℝ) (p : Fin 5) : List ℝ :=
  let delta := max ((CALIB_PARAM_DEFS p).step * 0.1) 1e-6
  let rPlus := computeResiduals measurements linkParams
    (Function.update calibParams p (calibParams p + delta))
  let residuals := computeResiduals measurements linkParams calibParams
  List.zipWith (fun a b => (a - b) / delta) rPlus residuals

/-- Lines 596-617: normal matrix `JᵗJ` with the Levenberg-Marquardt damping
`JtJ[i][i] += 0.01 * (JtJ[i][i] + 1e-8)` added on the diagonal. -/
def calibNormalA (measurements : List Measurement) (linkParams : LinkParams)
    (calibParams : Fin 5 → ℝ) : Fin 5 → Fin 5 → ℝ :=
  let J := calibJacobianCol measurements linkParams calibParams
  fun i j =>
    if i = j then dotList (J i) (J j) + 0.01 * (dotList (J i) (J j) + 1e-8)
    else dotList (J i) (J j)

/-- Lines 607-613: right-hand side `Jᵗ r`. -/
def calibNormalB (measurements : List Measurement) (linkParams : LinkParams)
    (calibParams : Fin 5 → ℝ) : Fin 5 → ℝ :=
  fun i => dotList (calibJacobianCol measurements linkParams calibParams i)
    (computeResiduals measurements linkParams calibParams)

/-- Lines 624-643: one column step of Gaussian elimination with partial
pivoting; if the pivot magnitude is below `1e-12` the elimination for this
column is skipped (the row swap persists). -/
def gaussStep (st : (Fin 5 → Fin 5 → ℝ) × (Fin 5 → ℝ)) (col : Fin 5) :
    (Fin 5 → Fin 5 → ℝ) × (Fin 5 → ℝ) :=
  let A := st.1
  let b := st.2
  let maxRow := (List.finRange 5).foldl
    (fun mr row => if col < row ∧ |A mr col| < |A row col| then row else mr) col
  let A1 := fun r c => A (Equiv.swap col maxRow r) c
  let b1 := fun r => b (Equiv.swap col maxRow r)
  let pivot := A1 col col
  if |pivot| < 1e-12 then (A1, b1)
  else
    (fun r c => if col < r ∧ col ≤ c then A1 r c - A1 r col / pivot * A1 col c else A1 r c,
     fun r => if col < r then b1 r - A1 r col / pivot * b1 col else b1 r)

/-- Lines 646-653: back substitution; a step whose diagonal entry has
magnitude `≤ 1e-12` contributes delta 0. -/
def backSub (A : Fin 5 → Fin 5 → ℝ) (b : Fin 5 → ℝ) : Fin 5 → ℝ :=
  (List.finRange 5).reverse.foldl
    (fun dp i =>
      let s := b i - (List.finRange 5).foldl (fun acc j => if i < j then acc + A i j * dp j else acc) 0
      Function.update dp i (if 1e-12 < |A i i| then s / A i i else 0))
    (fun _ => 0)

/-- Lines 568-653: the Gauss-Newton delta `Δp` for one iteration. -/
def calibDelta (measurements : List Measurement) (linkParams : LinkParams)
    (calibParams : Fin 5 → ℝ) : Fin 5 → ℝ :=
  let solved := (List.finRange 5).foldl gaussStep
    (calibNormalA measurements linkParams calibParams,
     calibNormalB measurements linkParams calibParams)
  backSub solved.1 solved.2

/-- Line 659: `Math.max(def.min, Math.min(def.max, v))` — the hard clamp. -/
def clampParam (i : Fin 5) (x : ℝ) : ℝ :=
  max (CALIB_PARAM_DEFS i).min (min (CALIB_PARAM_DEFS i).max x)

/-- Lines 655-664: the clamped parameter update of one iteration, together
with the largest parameter step (used for the convergence test). -/
def calibStep (measurements : List Measurement) (linkParams : LinkParams)
    (calibParams : Fin 5 → ℝ) : (Fin 5 → ℝ) × ℝ :=
  let newCp := fun i => clampParam i (calibParams i - calibDelta measurements linkParams calibParams i)
  (newCp, (List.finRange 5).foldl (fun acc i => max acc |newCp i - calibParams i|) 0)

/-- Lines 564-665: the damped Gauss-Newton iteration, fuel = `maxIterations`;
the update is applied before the convergence check (`maxStep < 1e-6`). -/
def calibLoop (measurements : List Measurement) (linkParams : LinkParams) :
    ℕ → (Fin 5 → ℝ) → (Fin 5 → ℝ)
  | 0, cp => cp
  | n + 1, cp =>
    let r := calibStep measurements linkParams cp
    if r.2 < 1e-6 then r.1 else calibLoop measurements linkParams n r.1

/-- `model.js` lines 548-679: the calibration engine.  The wall-clock read
`new Date().toISOString()` of line 673 is modelled by the explicit `now`
argument, which flows only into the `timestamp` field. -/
def calibrateModel (measurements? : Option (List Measurement)) (linkParams : LinkParams)
    (refSatellite : Option RefSat) (now : String) : CalibrationProfile :=
  match measurements? with
  | none => createDefaultCalibration
  | some measurements =>
    if measurements.isEmpty then createDefaultCalibration
    else
      let effectiveParams := match refSatellite with
        | some rs => { linkParams with freq := rs.freq, eirp := some rs.eirp }
        | none => linkParams
      let finalParams := calibLoop measurements effectiveParams 30
        (fun i => (CALIB_PARAM_DEFS i).defaultVal)
      let finalResiduals := computeResiduals measurements effectiveParams finalParams
      { calibrated := true
        timestamp := some now
        dataPointCount := measurements.length
        residualRMS := Real.sqrt ((finalResiduals.foldl (fun s r => s + r * r) 0)
          / max 1 (finalResiduals.length : ℝ))
        refSatellite := refSatellite.map RefSat.satName
        params := finalParams }

/-! ## Channel time-series generator (`model.js` lines 828-942)

The orbit propagation block (lines 835-856: `satellite.twoline2satrec`,
`propagate`, `gstime`, `eciToEcf`, `ecfToLookAngles` — the external
`satellite.js` collaborator, not part of this repository's sources) is
modelled from the spec's collaborator contract (§6): a function from a
timestamp to `Option Geometry` (`none` = "no position resolved", i.e. the
`if (!pv.position) continue` of line 849).  The locale-dependent display
string `timeLabel` (line 900, `date.toLocaleTimeString()`) is omitted.
The JS `for (t = start; t <= end; t += stepSec*1000)` loop does not
terminate for `stepSec ≤ 0`; that degenerate case is modelled as an empty
time list. -/

/-- The propagator output contract: elevation/azimuth in degrees, range in km. -/
structure Geometry where
  elev : ℝ
  az : ℝ
  range : ℝ

/-- One frame of the channel time series (lines 898-933). -/
structure TimelineFrame where
  time : ℝ
  frameIndex : ℕ
  elevation : ℝ
  azimuth : ℝ
  slantRange : ℝ
  apparentElevation : ℝ
  absoluteFspl : ℝ
  rxPowerDbm : ℝ
  noiseFloorDbm : ℝ
  snrDb : ℝ
  attRain : ℝ
  attGas : ℝ
  attCloud : ℝ
  totalAtmosphericLoss : ℝ
  fadeLMS : ℝ
  lossFaraday : ℝ
  pointingLoss : ℝ
  scanLoss : ℝ
  multipathLoss : ℝ
  scintLoss : ℝ
  tSky : ℝ
  xpd : ℝ
  capRank1 : ℝ
  capRank2 : ℝ
  groupDelayNs : ℝ
  dispersionNs : ℝ
  cir : CIRResult

/-- Lines 862-867: the per-frame link-budget parameters — elevation floored
at 0.1°, slant range from the propagator, `simTime = frameIndex * stepSec`
(0 when fast fading is disabled). -/
def tsLbParams (lp : LinkParams) (stepSec : ℝ) (frameIndex : ℕ) (g : Geometry) : LinkParams :=
  { lp with
    elevation := max 0.1 g.elev
    slantRange := some g.range
    simTime := some (if lp.disableFastFading then 0 else (frameIndex : ℝ) * stepSec) }

/-- Lines 857-933: build one emitted timeline frame. -/
def mkFrame (lp : LinkParams) (stepSec : ℝ) (frameIndex : ℕ) (t : ℝ) (g : Geometry) :
    TimelineFrame :=
  let lbParams := tsLbParams lp stepSec frameIndex g
  let lb := calculateLinkBudget lbParams
  let absoluteFspl := 20 * Real.logb 10 g.range + 20 * Real.logb 10 (jsOr lp.freq 30) + 92.45
  let eirp := jsOrOpt lp.eirp 60.0
  let gRx := jsOrOpt lp.gRx 42.0
  let tRx := jsOrOpt lp.tRx 150.0
  let bwMHz := jsOrOpt lp.bandwidth 400.0
  let absoluteLoss := lb.totalAtmosphericLoss + lb.fadeLMS + lb.lossFaraday
    + lb.pointingLoss + jsOr lb.scanLoss 0 + jsOr lb.multipathLoss 0
    + jsOr lb.scintLoss 0 + absoluteFspl
  let rxPowerDbm := eirp + 30 - absoluteLoss + gRx
  let tSys := tRx + lb.tSky + 3.0
  let noisePowerW := 1.380649e-23 * tSys * (bwMHz * 1e6)
  let noiseFloorDbm := 10 * Real.logb 10 noisePowerW + 30
  let snrDb := max (-30) (rxPowerDbm - noiseFloorDbm)
  let mimo := calculateMIMOCapacity snrDb lb.xpd
  { time := t
    frameIndex := frameIndex
    elevation := g.elev
    azimuth := g.az
    slantRange := g.range
    apparentElevation := lb.apparentElevation
    absoluteFspl := absoluteFspl
    rxPowerDbm := rxPowerDbm
    noiseFloorDbm := noiseFloorDbm
    snrDb := snrDb
    attRain := lb.attRain
    attGas := lb.attGas
    attCloud := lb.attCloud
    totalAtmosphericLoss := lb.totalAtmosphericLoss
    fadeLMS := lb.fadeLMS
    lossFaraday := lb.lossFaraday
    pointingLoss := lb.pointingLoss
    scanLoss := jsOr lb.scanLoss 0
    multipathLoss := jsOr lb.multipathLoss 0
    scintLoss := jsOr lb.scintLoss 0
    tSky := lb.tSky
    xpd := lb.xpd
    capRank1 := mimo.capRank1
    capRank2 := mimo.capRank2
    groupDelayNs := lb.groupDelayNs
    dispersionNs := lb.dispersionNs
    cir := computeCIR { lbParams with freq := jsOr lp.freq 30 } }

/-- The sampled timestamps (ms) of the `for` loop at line 846. -/
def timesList (startMs endMs stepMs : ℝ) : List ℝ :=
  if 0 < stepMs ∧ startMs ≤ endMs then
    (List.range ((⌊(endMs - startMs) / stepMs⌋).toNat + 1)).map
      (fun i => startMs + (i : ℝ) * stepMs)
  else []

/-- The `(timestamp, geometry)` pairs at which the propagator resolves a
position (frames are emitted exactly at these, line 849). -/
def resolvedTimes (prop : ℝ → Option Geometry) (ts : List ℝ) : List (ℝ × Geometry) :=
  ts.filterMap (fun t => (prop t).map (fun g => (t, g)))

/-- Lines 846-936: the generation loop; `frameIndex` counts emitted frames. -/
def genAux (prop : ℝ → Option Geometry) (lp : LinkParams) (stepSec : ℝ) :
    List ℝ → ℕ → List TimelineFrame
  | [], _ => []
  | t :: rest, idx =>
    match prop t with
    | none => genAux prop lp stepSec rest idx
    | some g => mkFrame lp stepSec idx t g :: genAux prop lp stepSec rest (idx + 1)

/-- `model.js` lines 828-942: the channel time-series generator, with the
orbit propagator passed as the explicit collaborator `prop`. -/
def generateChannelTimeSeries (prop : ℝ → Option Geometry) (lp : LinkParams)
    (startTime endTime stepSec : ℝ) : List TimelineFrame :=
  genAux prop lp stepSec (timesList startTime endTime (stepSec * 1000)) 0

/-! ## Shared example inputs -/

/-- A concrete well-formed parameter object used by witnesses. -/
def exampleParams : LinkParams :=
  { freq := 12, rainRate := 0, elevation := 30, env := "rural" }

/-! ## Claim theorems -/

/-- C8: for all finite `snrDb` and `xpdDb`, `calculateMIMOCapacity` returns
rank-1 capacity `log2(1 + SNR_linear)` with `SNR_linear = 10^(snrDb/10)`, and
rank-2 capacity `2·log2(1 + SINR)` where
`SINR = (SNR_linear/2) / (1 + (SNR_linear/2)·10^(-xpdDb/10))`. -/
theorem mimo_capacity_formulas (snrDb xpdDb : ℝ) :
    (calculateMIMOCapacity snrDb xpdDb).capRank1
        = Real.logb 2 (1 + (10 : ℝ) ^ (snrDb / 10))
    ∧ (calculateMIMOCapacity snrDb xpdDb).capRank2
        = 2 * Real.logb 2 (1 + (10 : ℝ) ^ (snrDb / 10) / 2
            / (1 + (10 : ℝ) ^ (snrDb / 10) / 2 * (10 : ℝ) ^ (-xpdDb / 10))) :=
  ⟨rfl, rfl⟩

/-- C7: `calibrateModel` applied to a missing or empty measurement list
returns the untouched default profile — `calibrated = false`,
`dataPointCount = 0`, `residualRMS = 0`, no timestamp, and all five
parameters at their identity defaults (1.0, 0, 0, 0, 0). -/
theorem calibrate_empty_returns_default (lp : LinkParams) (ref : Option RefSat) (now : String) :
    calibrateModel none lp ref now = createDefaultCalibration
    ∧ calibrateModel (some []) lp ref now = createDefaultCalibration
    ∧ createDefaultCalibration.calibrated = false
    ∧ createDefaultCalibration.dataPointCount = 0
    ∧ createDefaultCalibration.residualRMS = 0
    ∧ createDefaultCalibration.timestamp = none
    ∧ createDefaultCalibration.params 0 = 1
    ∧ createDefaultCalibration.params 1 = 0
    ∧ createDefaultCalibration.params 2 = 0
    ∧ createDefaultCalibration.params 3 = 0
    ∧ createDefaultCalibration.params 4 = 0 := by
  refine ⟨rfl, rfl, rfl, rfl, rfl, rfl, ?_, ?_, ?_, ?_, ?_⟩ <;>
    norm_num [createDefaultCalibration, CALIB_PARAM_DEFS]

/-- C10: `applyCalibration` is the identity on its first argument whenever
the profile is absent or has `calibrated = false`; in particular applying
the default (uncalibrated) profile leaves all link parameters untouched. -/
theorem applyCalibration_uncalibrated_identity :
    (∀ rp : LinkParams, applyCalibration rp none = rp)
    ∧ (∀ (rp : LinkParams) (profile : CalibrationProfile), profile.calibrated = false →
        applyCalibration rp (some profile) = rp)
    ∧ (∀ rp : LinkParams, applyCalibration rp (some createDefaultCalibration) = rp) := by
  refine ⟨fun rp => rfl, fun rp profile h => ?_, fun rp => rfl⟩
  simp [applyCalibration, h]

/-- Witness for C10 at a concrete input. -/
theorem applyCalibration_uncalibrated_identity_witness :
    createDefaultCalibration.calibrated = false
    ∧ applyCalibration exampleParams (some createDefaultCalibration) = exampleParams :=
  ⟨rfl, applyCalibration_uncalibrated_identity.2.1 exampleParams createDefaultCalibration rfl⟩

/-- The rain-coefficient table only holds positive exponents, so the selected
`alpha` is positive whatever the frequency. -/
lemma selectRainCoeff_alpha_pos (freq : ℝ) : 0 < (selectRainCoeff freq).2 := by
  simp only [selectRainCoeff, RAIN_COEFFS, List.foldl_cons, List.foldl_nil]
  split_ifs <;> norm_num

/-- C4 (amended): with rain rate = 0 and TEC = 0, at every input where the
computation is non-degenerate — `freq ≠ 0` and the two slant-path divisors
are nonzero (`sin(elevRad) ≠ 0` and `1 + 0.045·slantPath ≠ 0`), so that no
division by zero occurs on the `attRain`, `lossFaraday` or `groupDelayNs`
paths and IEEE and real arithmetic agree — `calculateLinkBudget` returns
rain attenuation exactly 0, Faraday polarization loss exactly 0, and
ionospheric group delay exactly 0. -/
theorem vacuum_baseline (p : LinkParams) (hr : p.rainRate = 0) (ht : p.tec = some 0)
    (_hf : p.freq ≠ 0) (_hs : Real.sin (elevRad p) ≠ 0)
    (_hrf : 1 + 0.045 * slantPathLB p ≠ 0) :
    (calculateLinkBudget p).attRain = 0
    ∧ (calculateLinkBudget p).lossFaraday = 0
    ∧ (calculateLinkBudget p).groupDelayNs = 0 := by
  refine ⟨?_, ?_, ?_⟩
  · show attRain p = 0
    rw [attRain, gammaLB, hr,
      Real.zero_rpow (ne_of_gt (selectRainCoeff_alpha_pos p.freq))]
    ring
  · show lossFaraday p = 0
    have hω : omegaRad p = 0 := by simp [omegaRad, omegaDeg, tecD, ht]
    rw [lossFaraday, hω]
    norm_num [Real.cos_zero, Real.logb_one]
  · show groupDelayNs p = 0
    simp [groupDelayNs, tecValLB, ht]

/-- The C4 counterexample input: rain rate 0 and TEC 0 as the claim demands,
with the elevation at the refraction singularity (cf. `paramsC1`). -/
def paramsC4cex : LinkParams :=
  { freq := 12
    rainRate := 0
    elevation := -(1.02 / Real.tan ((0 + 10.3 / (0 + 5.11)) * π / 180) / 60)
    env := "rural"
    tec := some 0
    slantRange := some 550 }

/-- C4 counterexample: the original claim quantified over *every* input with
rain rate 0 and TEC 0, but at this input the apparent elevation is exactly 0,
so the `attRain` computation divides by `sin(elevRad) = 0` (in JS:
`slantPath = Infinity`, `lEff = Infinity·0 = NaN`, `attRain = 0·NaN = NaN` —
not 0) and the Faraday rotation is `108·0 / (freq²·0) = 0/0` (in JS: `NaN`,
`cos(NaN) = NaN` fails the `> 0.001` test, so `lossFaraday = 60` — not 0).
The theorem proves the rotation numerator `108·TEC = 0` together with its
denominator `freq²·sin(elevRad) = 0`, and the zero slant-path divisor, at an
input satisfying the claim's hypotheses. -/
theorem vacuum_baseline_cex :
    paramsC4cex.rainRate = 0 ∧ paramsC4cex.tec = some 0
    ∧ 0 < paramsC4cex.freq ∧ -90 ≤ paramsC4cex.elevation ∧ paramsC4cex.elevation ≤ 90
    ∧ Real.sin (elevRad paramsC4cex) = 0
    ∧ 108 * tecD paramsC4cex = 0
    ∧ paramsC4cex.freq ^ (2 : ℕ) * Real.sin (elevRad paramsC4cex) = 0 := by
  have hpi := Real.pi_pos
  have hx0 : (0 : ℝ) < (0 + 10.3 / (0 + 5.11)) * π / 180 := by positivity
  have hx2 : (0 + 10.3 / (0 + 5.11)) * π / 180 < π / 2 := by
    have h1 : ((0 : ℝ) + 10.3 / (0 + 5.11)) < 2.02 := by norm_num
    nlinarith
  have htan0 : 0 < Real.tan ((0 + 10.3 / (0 + 5.11)) * π / 180) :=
    Real.tan_pos_of_pos_of_lt_pi_div_two hx0 hx2
  have helev : paramsC4cex.elevation
      = -(1.02 / Real.tan ((0 + 10.3 / (0 + 5.11)) * π / 180) / 60) := rfl
  have helev_nonpos : paramsC4cex.elevation ≤ 0 := by
    rw [helev]
    have h := div_pos (div_pos (by norm_num : (0:ℝ) < 1.02) htan0) (by norm_num : (0:ℝ) < 60)
    linarith
  have htrue : trueElev paramsC4cex = 0 := max_eq_left helev_nonpos
  have happ : apparentElevation paramsC4cex = 0 := by
    rw [apparentElevation, refractionCorrection, htrue, helev]
    ring
  have hrad : elevRad paramsC4cex = 0 := by rw [elevRad, happ]; ring
  have hsin : Real.sin (elevRad paramsC4cex) = 0 := by rw [hrad]; exact Real.sin_zero
  have h90 : -90 ≤ paramsC4cex.elevation := by
    rw [helev]
    have h3 := Real.pi_gt_three
    have hA : (2.015 : ℝ) < 0 + 10.3 / (0 + 5.11) := by norm_num
    have hxlb : (0.033 : ℝ) < (0 + 10.3 / (0 + 5.11)) * π / 180 := by nlinarith
    have hlb : (0.033 : ℝ) < Real.tan ((0 + 10.3 / (0 + 5.11)) * π / 180) :=
      lt_trans hxlb (Real.lt_tan hx0 hx2)
    have hdiv : 1.02 / Real.tan ((0 + 10.3 / (0 + 5.11)) * π / 180) < 1.02 / 0.033 :=
      div_lt_div_of_pos_left (by norm_num) (by norm_num) hlb
    have : (1.02 : ℝ) / 0.033 < 31 := by norm_num
    linarith
  exact ⟨rfl, rfl, by norm_num [paramsC4cex], h90,
    le_trans helev_nonpos (by norm_num), hsin,
    by simp [tecD, paramsC4cex], by rw [hsin]; ring⟩

/-- Concrete regular input for the C4 witness. -/
def paramsC4 : LinkParams :=
  { freq := 12, rainRate := 0, elevation := 30, env := "rural", tec := some 0 }

/-- At 30° elevation the apparent-elevation sine is strictly positive: the
refraction correction is positive and below 1°, so the apparent elevation
lies in (30°, 31°) and its radian form in (0, π). -/
lemma sin_elevRad_paramsC4_pos : 0 < Real.sin (elevRad paramsC4) := by
  have hpi := Real.pi_pos
  have htrue : trueElev paramsC4 = 30 := max_eq_right (by norm_num [paramsC4])
  have hrefl : refractionCorrection paramsC4
      = 1.02 / Real.tan ((30 + 10.3 / (30 + 5.11)) * π / 180) / 60 := by
    rw [refractionCorrection, htrue]
  have hx0 : (0 : ℝ) < (30 + 10.3 / (30 + 5.11)) * π / 180 := by positivity
  have hx2 : (30 + 10.3 / (30 + 5.11)) * π / 180 < π / 2 := by
    have h1 : ((30 : ℝ) + 10.3 / (30 + 5.11)) < 30.3 := by norm_num
    nlinarith
  have htan1 : 0 < Real.tan ((30 + 10.3 / (30 + 5.11)) * π / 180) :=
    Real.tan_pos_of_pos_of_lt_pi_div_two hx0 hx2
  have hrp : 0 < refractionCorrection paramsC4 := by
    rw [hrefl]
    exact div_pos (div_pos (by norm_num) htan1) (by norm_num)
  have hxlb : (0.5 : ℝ) < (30 + 10.3 / (30 + 5.11)) * π / 180 := by
    have h3 := Real.pi_gt_three
    have hA : (30 : ℝ) < 30 + 10.3 / (30 + 5.11) := by norm_num
    nlinarith
  have htanlb : (0.5 : ℝ) < Real.tan ((30 + 10.3 / (30 + 5.11)) * π / 180) :=
    lt_trans hxlb (Real.lt_tan hx0 hx2)
  have hrlt : refractionCorrection paramsC4 < 1 := by
    rw [hrefl]
    have hd : 1.02 / Real.tan ((30 + 10.3 / (30 + 5.11)) * π / 180) < 1.02 / 0.5 :=
      div_lt_div_of_pos_left (by norm_num) (by norm_num) htanlb
    have : (1.02 : ℝ) / 0.5 < 2.1 := by norm_num
    linarith
  have helev30 : paramsC4.elevation = (30 : ℝ) := rfl
  have happ1 : (0 : ℝ) < apparentElevation paramsC4 := by
    rw [apparentElevation, helev30]
    linarith
  have happ2 : apparentElevation paramsC4 < 180 := by
    rw [apparentElevation, helev30]
    linarith
  have h1 : 0 < elevRad paramsC4 := by
    rw [elevRad]
    exact div_pos (mul_pos happ1 hpi) (by norm_num)
  have h2 : elevRad paramsC4 < π := by
    rw [elevRad]
    have := mul_lt_mul_of_pos_right happ2 hpi
    linarith
  exact Real.sin_pos_of_pos_of_lt_pi h1 h2

/-- The reduction-factor denominator is positive at the witness input. -/
lemma rfactor_denom_paramsC4_pos : 0 < 1 + 0.045 * slantPathLB paramsC4 := by
  have h := sin_elevRad_paramsC4_pos
  rw [slantPathLB]
  have hsp : (0 : ℝ) < 3.0 / Real.sin (elevRad paramsC4) := div_pos (by norm_num) h
  nlinarith

/-- Witness for the amended C4 at a concrete input: every hypothesis holds
and the three terms are exactly 0. -/
theorem vacuum_baseline_witness :
    paramsC4.rainRate = 0 ∧ paramsC4.tec = some 0 ∧ paramsC4.freq ≠ 0
    ∧ Real.sin (elevRad paramsC4) ≠ 0 ∧ 1 + 0.045 * slantPathLB paramsC4 ≠ 0
    ∧ ((calculateLinkBudget paramsC4).attRain = 0
      ∧ (calculateLinkBudget paramsC4).lossFaraday = 0
      ∧ (calculateLinkBudget paramsC4).groupDelayNs = 0) :=
  ⟨rfl, rfl, by norm_num [paramsC4], ne_of_gt sin_elevRad_paramsC4_pos,
    ne_of_gt rfactor_denom_paramsC4_pos,
    vacuum_baseline paramsC4 rfl rfl (by norm_num [paramsC4])
      (ne_of_gt sin_elevRad_paramsC4_pos) (ne_of_gt rfactor_denom_paramsC4_pos)⟩

/-- C9: passing `tec = 0` makes `computeCIR` behave exactly as with
`tec = 50` (the `tec || 50` falsy default), so the ionospheric tap is present
exactly when it would be with `tec = 50`; `calculateLinkBudget` applies the
same substitution to the ionospheric scintillation sigma. -/
theorem tec_zero_substitutes_fifty (p : LinkParams) :
    computeCIR { p with tec := some 0 } = computeCIR { p with tec := some 50 }
    ∧ (cirInputOf { p with tec := some 0 }).tecVal = 50
    ∧ (calculateLinkBudget { p with tec := some 0 }).scintillationSigma
        = (calculateLinkBudget { p with tec := some 50 }).scintillationSigma := by
  have h0 : cirInputOf { p with tec := some 0 } = cirInputOf { p with tec := some 50 } := by
    simp [cirInputOf, jsOr]
  refine ⟨by rw [computeCIR, computeCIR, h0], by simp [cirInputOf, jsOr], ?_⟩
  show scintillationSigma { p with tec := some 0 } = scintillationSigma { p with tec := some 50 }
  simp [scintillationSigma, sigmaTropo, sigmaIono, sinElevFloor, apparentElevation,
    refractionCorrection, trueElev, jsOrOpt, jsOr]

/-- Spec-side tap-label table (from the claim wording): the tap set is a
function of the environment and of the dispersion-threshold outcome alone,
listed in insertion order — LOS, then sea-reflection, then scatter, then
ionospheric. -/
def tapLabelsSpec (env : String) (ionoPresent : Bool) : List String :=
  ["LOS (直射)"]
    ++ (if env = "maritime" then ["海面反射"] else [])
    ++ (if env = "urban" then ["建筑散射-近", "建筑散射-远"]
        else if env = "suburban" then ["植被散射-近", "植被散射-远"] else [])
    ++ (if ionoPresent then ["电离层色散"] else [])

/-- C2: `computeCIR` always returns at least one tap; the first tap is the
LOS tap with index 0, excess delay exactly 0 and phase exactly 0; and the
tap list (by label, in insertion order) is fully determined by the
environment and the dispersion threshold `dispersionNs > 0.01`. -/
theorem cir_tap_structure (p : LinkParams) :
    (computeCIR p).taps ≠ []
    ∧ (∃ t rest, (computeCIR p).taps = t :: rest ∧ t.index = 0
        ∧ t.label = "LOS (直射)" ∧ t.excessDelay_ns = 0 ∧ t.phase_rad = 0)
    ∧ (computeCIR p).taps.map ChannelTap.label
        = tapLabelsSpec p.env (if 0.01 < cirDispersionNs (cirInputOf p) then true else false) := by
  have htaps : (computeCIR p).taps
      = losTap (cirInputOf p) ::
        (cirSeaTaps (cirInputOf p) ++ cirScatterTaps (cirInputOf p) ++ cirIonoTaps (cirInputOf p)) := by
    simp [computeCIR, cirCore, cirTaps]
  have henv : (cirInputOf p).env = p.env := rfl
  have hsea : (cirSeaTaps (cirInputOf p)).map ChannelTap.label
      = (if p.env = "maritime" then ["海面反射"] else []) := by
    by_cases h : p.env = "maritime" <;> simp [cirSeaTaps, seaTap, henv, h]
  have hsc : (cirScatterTaps (cirInputOf p)).map ChannelTap.label
      = (if p.env = "urban" then ["建筑散射-近", "建筑散射-远"]
          else if p.env = "suburban" then ["植被散射-近", "植被散射-远"] else []) := by
    by_cases hu : p.env = "urban"
    · simp [cirScatterTaps, scatterParamsFor, henv, hu, List.enum, List.enumFrom]
    · by_cases hs : p.env = "suburban"
      · simp [cirScatterTaps, scatterParamsFor, henv, hu, hs, List.enum, List.enumFrom]
      · simp [cirScatterTaps, henv, hu, hs]
  have hio : (cirIonoTaps (cirInputOf p)).map ChannelTap.label
      = (if (if 0.01 < cirDispersionNs (cirInputOf p) then true else false) = true
          then ["电离层色散"] else []) := by
    by_cases hd : 0.01 < cirDispersionNs (cirInputOf p) <;> simp [cirIonoTaps, ionoTap, hd]
  refine ⟨by rw [htaps]; simp,
    ⟨losTap (cirInputOf p), _, htaps, rfl, rfl, rfl, rfl⟩, ?_⟩
  rw [htaps]
  simp only [List.map_cons, List.map_append, hsea, hsc, hio, tapLabelsSpec]
  simp [losTap]

/-- Bounds table sanity: every declared minimum is at most its maximum. -/
lemma calibDef_min_le_max (i : Fin 5) : (CALIB_PARAM_DEFS i).min ≤ (CALIB_PARAM_DEFS i).max := by
  fin_cases i <;> norm_num [CALIB_PARAM_DEFS]

/-- Every default value respects its declared bounds. -/
lemma calibDef_default_mem (i : Fin 5) :
    (CALIB_PARAM_DEFS i).min ≤ (CALIB_PARAM_DEFS i).defaultVal
      ∧ (CALIB_PARAM_DEFS i).defaultVal ≤ (CALIB_PARAM_DEFS i).max := by
  fin_cases i <;> constructor <;> norm_num [CALIB_PARAM_DEFS]

/-- The hard clamp of line 659 always lands inside the declared bounds. -/
lemma clampParam_mem (i : Fin 5) (x : ℝ) :
    (CALIB_PARAM_DEFS i).min ≤ clampParam i x ∧ clampParam i x ≤ (CALIB_PARAM_DEFS i).max :=
  ⟨le_max_left _ _, max_le (calibDef_min_le_max i) (min_le_left _ _)⟩

/-- One Gauss-Newton iteration leaves every parameter inside its bounds. -/
lemma calibStep_fst_mem (ms : List Measurement) (lp : LinkParams) (cp : Fin 5 → ℝ) (i : Fin 5) :
    (CALIB_PARAM_DEFS i).min ≤ (calibStep ms lp cp).1 i
      ∧ (calibStep ms lp cp).1 i ≤ (CALIB_PARAM_DEFS i).max :=
  clampParam_mem i (cp i - calibDelta ms lp cp i)

/-- The whole iteration loop preserves the bounds. -/
lemma calibLoop_mem (ms : List Measurement) (lp : LinkParams) (n : ℕ) :
    ∀ cp : Fin 5 → ℝ,
    (∀ i, (CALIB_PARAM_DEFS i).min ≤ cp i ∧ cp i ≤ (CALIB_PARAM_DEFS i).max) →
    ∀ i, (CALIB_PARAM_DEFS i).min ≤ calibLoop ms lp n cp i
      ∧ calibLoop ms lp n cp i ≤ (CALIB_PARAM_DEFS i).max := by
  induction n with
  | zero => intro cp h i; exact h i
  | succ n ih =>
    intro cp h i
    simp only [calibLoop]
    split
    · exact calibStep_fst_mem ms lp cp i
    · exact ih _ (fun j => calibStep_fst_mem ms lp cp j) i

/-- C3: every calibration parameter in the profile returned by
`calibrateModel` lies within its declared bounds — `correctionFactor` in
[0.3, 3.0], `gasAttenOffset_dB` in [-2, 2], `scatterPowerOffset_dB` in
[-10, 5], `eirpOffset_dB` in [-5, 5], `systemNoiseOffset_K` in [-50, 100] —
because the update is hard-clamped to each parameter's range every
iteration. -/
theorem calibration_params_bounded (ms? : Option (List Measurement)) (lp : LinkParams)
    (ref : Option RefSat) (now : String) :
    (0.3 ≤ (calibrateModel ms? lp ref now).params 0
      ∧ (calibrateModel ms? lp ref now).params 0 ≤ 3.0)
    ∧ (-2.0 ≤ (calibrateModel ms? lp ref now).params 1
      ∧ (calibrateModel ms? lp ref now).params 1 ≤ 2.0)
    ∧ (-10 ≤ (calibrateModel ms? lp ref now).params 2
      ∧ (calibrateModel ms? lp ref now).params 2 ≤ 5.0)
    ∧ (-5.0 ≤ (calibrateModel ms? lp ref now).params 3
      ∧ (calibrateModel ms? lp ref now).params 3 ≤ 5.0)
    ∧ (-50 ≤ (calibrateModel ms? lp ref now).params 4
      ∧ (calibrateModel ms? lp ref now).params 4 ≤ 100) := by
  have key : ∀ i, (CALIB_PARAM_DEFS i).min ≤ (calibrateModel ms? lp ref now).params i
      ∧ (calibrateModel ms? lp ref now).params i ≤ (CALIB_PARAM_DEFS i).max := by
    intro i
    match ms? with
    | none => exact calibDef_default_mem i
    | some ms =>
      cases ms with
      | nil => exact calibDef_default_mem i
      | cons m rest =>
        simp only [calibrateModel, List.isEmpty_cons, Bool.false_eq_true, if_false]
        exact calibLoop_mem (m :: rest) _ 30 _ (fun j => calibDef_default_mem j) i
  have h0 := key 0
  have h1 := key 1
  have h2 := key 2
  have h3 := key 3
  have h4 := key 4
  norm_num [CALIB_PARAM_DEFS] at h0 h1 h2 h3 h4
  norm_num [h0.1, h0.2, h1.1, h1.2, h2.1, h2.2, h3.1, h3.2, h4.1, h4.2]

/-- Drop the timestamp metadata field from a profile. -/
def stripTimestamp (profile : CalibrationProfile) : CalibrationProfile :=
  { profile with timestamp := none }

/-- A one-point measurement list used by the C5 counterexample. -/
def measurementC5 : Measurement := { measuredCN0_dB := some 60 }

/-- C5 counterexample: the claim is false as stated — `calibrateModel`
reads the ambient wall clock (line 673, `new Date().toISOString()`,
modelled as the explicit `now` argument) into the profile's `timestamp`
field, so two calls with identical explicit inputs made at different times
do not return bit-for-bit identical outputs in every field. -/
theorem calibrateModel_reads_wall_clock :
    calibrateModel (some [measurementC5]) exampleParams none "2024-01-01T00:00:00.000Z"
      ≠ calibrateModel (some [measurementC5]) exampleParams none "2024-01-01T00:00:01.000Z" := by
  intro h
  have h2 := congrArg CalibrationProfile.timestamp h
  have e1 : (calibrateModel (some [measurementC5]) exampleParams none
      "2024-01-01T00:00:00.000Z").timestamp = some "2024-01-01T00:00:00.000Z" := rfl
  have e2 : (calibrateModel (some [measurementC5]) exampleParams none
      "2024-01-01T00:00:01.000Z").timestamp = some "2024-01-01T00:00:01.000Z" := rfl
  rw [e1, e2] at h2
  exact absurd (Option.some.inj h2) (by decide)

/-- C5 (amended): every output field of `calibrateModel` other than the
wall-clock `timestamp` is a pure function of the explicit inputs — stripping
the timestamp, two calls with identical explicit inputs at different clock
readings return identical profiles. -/
theorem calibrateModel_deterministic_mod_timestamp (ms? : Option (List Measurement))
    (lp : LinkParams) (ref : Option RefSat) (now now₂ : String) :
    stripTimestamp (calibrateModel ms? lp ref now)
      = stripTimestamp (calibrateModel ms? lp ref now₂) := by
  match ms? with
  | none => rfl
  | some ms =>
    cases ms with
    | nil => rfl
    | cons m rest => rfl

/-! ## Time-series spec-side lists (modelled from the spec wording, §4.5) -/

/-- The geometries at which the propagator resolves a position. -/
def visibleGeometries (prop : ℝ → Option Geometry) (s e st : ℝ) : List Geometry :=
  (resolvedTimes prop (timesList s e (st * 1000))).map Prod.snd

/-- Modelled from the spec: the link-budget inputs the generator must feed
the engines — elevation floored at 0.1°, slant range from the propagator,
`simTime` derived from the emitted frame index × step (0 when fast fading is
disabled). -/
def lbInputsSpec (prop : ℝ → Option Geometry) (lp : LinkParams) (s e st : ℝ) :
    List LinkParams :=
  ((resolvedTimes prop (timesList s e (st * 1000))).enum).map (fun z =>
    { lp with
      elevation := max 0.1 z.2.2.elev
      slantRange := some z.2.2.range
      simTime := some (if lp.disableFastFading then 0 else (z.1 : ℝ) * st) })

/-- Modelled from the spec: the CIR inputs — the link-budget inputs with the
frequency falsy-defaulted to 30 (source line 895). -/
def cirInputsSpec (prop : ℝ → Option Geometry) (lp : LinkParams) (s e st : ℝ) :
    List LinkParams :=
  (lbInputsSpec prop lp s e st).map (fun q => { q with freq := jsOr lp.freq 30 })

/-- Unrolling of the generation loop into `filterMap` + `enumFrom` form. -/
lemma genAux_eq (prop : ℝ → Option Geometry) (lp : LinkParams) (st : ℝ) :
    ∀ (ts : List ℝ) (idx : ℕ),
    genAux prop lp st ts idx
      = ((resolvedTimes prop ts).enumFrom idx).map (fun z => mkFrame lp st z.1 z.2.1 z.2.2) := by
  intro ts
  induction ts with
  | nil => intro idx; simp [genAux, resolvedTimes]
  | cons t rest ih =>
    intro idx
    cases hp : prop t with
    | none =>
      simp [genAux, hp, resolvedTimes, List.filterMap_cons, ih idx]
    | some g =>
      simp only [genAux, hp, resolvedTimes, List.filterMap_cons, Option.map_some,
        List.enumFrom_cons, List.map_cons]
      exact congrArg _ (ih (idx + 1))

/-- Dropping the index of an `enumFrom` under a `snd`-only map. -/
lemma map_snd_enumFrom {α β : Type _} (f : α → β) :
    ∀ (n : ℕ) (l : List α), (l.enumFrom n).map (fun z => f z.2) = l.map f := by
  intro n l
  induction l generalizing n with
  | nil => simp
  | cons a l ih => simp [List.enumFrom_cons, ih]

/-- C6: in every frame emitted by the time-series generator, the elevation
fed into the link-budget and CIR engines is floored at 0.1°, while the true
(possibly negative) elevation from the propagator is preserved unchanged in
the frame's `elevation` field; frames are omitted exactly at the timestamps
where the propagator returns no position — never merely because the
elevation is negative. -/
theorem timeseries_elevation_policy (prop : ℝ → Option Geometry) (lp : LinkParams)
    (s e st : ℝ) :
    (generateChannelTimeSeries prop lp s e st).map TimelineFrame.elevation
        = (visibleGeometries prop s e st).map Geometry.elev
    ∧ (generateChannelTimeSeries prop lp s e st).map TimelineFrame.apparentElevation
        = (lbInputsSpec prop lp s e st).map (fun q => (calculateLinkBudget q).apparentElevation)
    ∧ (generateChannelTimeSeries prop lp s e st).map TimelineFrame.cir
        = (cirInputsSpec prop lp s e st).map computeCIR := by
  have hg := genAux_eq prop lp st (timesList s e (st * 1000)) 0
  refine ⟨?_, ?_, ?_⟩
  · rw [generateChannelTimeSeries, hg, List.map_map, visibleGeometries, List.map_map]
    exact map_snd_enumFrom (fun w : ℝ × Geometry => w.2.elev) 0 _
  · rw [generateChannelTimeSeries, hg, List.map_map, lbInputsSpec, List.map_map]
    rfl
  · rw [generateChannelTimeSeries, hg, List.map_map, cirInputsSpec, lbInputsSpec,
      List.map_map, List.map_map]
    rfl

/-- The C1 failing input: elevation chosen as the exact negative of the
constant refraction correction that lines 30-31 produce for any
non-positive elevation, so that `apparentElevation = 0` exactly.  All
other fields are well inside the claimed domain (freq 12 GHz > 0,
rain rate 0 ≥ 0, slant range 550 km > 0, elevation ∈ [-90, 90]). -/
def paramsC1 : LinkParams :=
  { freq := 12
    rainRate := 0
    elevation := -(1.02 / Real.tan ((0 + 10.3 / (0 + 5.11)) * π / 180) / 60)
    env := "rural"
    slantRange := some 550 }

/-- C1: the no-NaN claim fails on `calculateLinkBudget`.  Lines 53, 64 and 68
divide by `sin(elevRad)` with no floor (unlike line 143).  At `paramsC1` —
which satisfies every hypothesis of the claim — the apparent elevation is
exactly 0, so the divisor `sin(elevRad)` of `slantPath`, `attGas` and
`attCloud` is exactly zero; in IEEE arithmetic `slantPath = Infinity`,
`lEff = Infinity · 0 = NaN`, hence `attRain`, `totalAtmosphericLoss`,
`totalLoss` and `tSky` are all NaN and `attGas`, `attCloud` are Infinity. -/
theorem linkBudget_divides_by_zero_sin :
    0 < paramsC1.freq ∧ 0 ≤ paramsC1.rainRate
    ∧ -90 ≤ paramsC1.elevation ∧ paramsC1.elevation ≤ 90
    ∧ paramsC1.slantRange = some 550 ∧ (0 : ℝ) < 550
    ∧ Real.sin (elevRad paramsC1) = 0 := by
  have hpi := Real.pi_pos
  have hx0 : (0 : ℝ) < (0 + 10.3 / (0 + 5.11)) * π / 180 := by positivity
  have hx2 : (0 + 10.3 / (0 + 5.11)) * π / 180 < π / 2 := by
    have h1 : ((0 : ℝ) + 10.3 / (0 + 5.11)) < 2.02 := by norm_num
    nlinarith
  have htan0 : 0 < Real.tan ((0 + 10.3 / (0 + 5.11)) * π / 180) :=
    Real.tan_pos_of_pos_of_lt_pi_div_two hx0 hx2
  have helev : paramsC1.elevation
      = -(1.02 / Real.tan ((0 + 10.3 / (0 + 5.11)) * π / 180) / 60) := rfl
  have helev_nonpos : paramsC1.elevation ≤ 0 := by
    rw [helev]
    have h := div_pos (div_pos (by norm_num : (0:ℝ) < 1.02) htan0) (by norm_num : (0:ℝ) < 60)
    linarith
  have htrue : trueElev paramsC1 = 0 := max_eq_left helev_nonpos
  have happ : apparentElevation paramsC1 = 0 := by
    rw [apparentElevation, refractionCorrection, htrue, helev]
    ring
  have hrad : elevRad paramsC1 = 0 := by rw [elevRad, happ]; ring
  have h90 : -90 ≤ paramsC1.elevation := by
    rw [helev]
    have h3 := Real.pi_gt_three
    have hA : (2.015 : ℝ) < 0 + 10.3 / (0 + 5.11) := by norm_num
    have hxlb : (0.033 : ℝ) < (0 + 10.3 / (0 + 5.11)) * π / 180 := by nlinarith
    have hlb : (0.033 : ℝ) < Real.tan ((0 + 10.3 / (0 + 5.11)) * π / 180) :=
      lt_trans hxlb (Real.lt_tan hx0 hx2)
    have hdiv : 1.02 / Real.tan ((0 + 10.3 / (0 + 5.11)) * π / 180) < 1.02 / 0.033 :=
      div_lt_div_of_pos_left (by norm_num) (by norm_num) hlb
    have : (1.02 : ℝ) / 0.033 < 31 := by norm_num
    linarith
  refine ⟨by norm_num [paramsC1], by norm_num [paramsC1], h90,
    le_trans helev_nonpos (by norm_num), rfl, by norm_num, ?_⟩
  rw [hrad]
  exact Real.sin_zero

end SatChannel

end
